import Mathlib

/-!
# Verification of the web_search_agent core subsystems

Shallow embedding of the resilient fetch engine
(`src/backend/src/core/web_scraper.py`), the semantic similarity cache
(`src/backend/src/core/similarity_detector.py`) and the query gate
(`src/backend/src/core/query_validator.py`).

Conventions of the embedding:

* Python float quantities (similarity scores, confidences, thresholds) are
  represented exactly as integers in milli-units (`0.85` becomes `850`).
  Every constant of the source is a short decimal, so this scaling is exact
  and preserves all comparisons the code performs.
* Timestamps (`time.time()`, `datetime.now()`) are integers: seconds for the
  circuit breaker and the cache TTLs, milliseconds for retry delays (the
  retry-delay bases `5.0`, `2.0`, `1.5` seconds become `5000`, `2000`,
  `1500`).
* External services are oracle parameters: the embedding model is an
  `embedSim : String → String → ℤ` similarity oracle, `difflib.SequenceMatcher`
  a `textSim` oracle, `hashlib.md5` an `md5 : String → String` oracle and the
  OpenAI chat call an `llm` oracle returning a raw response outcome.
* Python's string operations `needle in haystack`, `s.lower()` and
  `s.strip()` are re-implemented structurally (`substrIn`, `pyLower`,
  `pyStrip`) so that all definitions evaluate inside the kernel.
* The JSON cache file is the explicit `List QueryRecord` state threaded
  through the cache operations; a record's `expires_at` field is
  `Option (Option ℤ)`: `none` when the field is absent, `some none` when it
  is present but not ISO-parsable, `some (some t)` when it parses to time `t`.
-/

/-! ## String primitives (Python `in`, `str.lower`, `str.strip`) -/

def charsStartWith : List Char → List Char → Bool
  | [], _ => true
  | _ :: _, [] => false
  | a :: as, b :: bs => a == b && charsStartWith as bs

def charsContains (needle : List Char) : List Char → Bool
  | [] => charsStartWith needle []
  | b :: bs => charsStartWith needle (b :: bs) || charsContains needle bs

/-- Python's substring test `needle in haystack`. -/
def substrIn (needle haystack : String) : Bool :=
  charsContains needle.data haystack.data

/-- Python's `str.lower` (the source only feeds it ASCII). -/
def pyLower (s : String) : String := ⟨s.data.map Char.toLower⟩

/-- Python's whitespace class used by `str.strip()`. -/
def pySpace (c : Char) : Bool :=
  c == ' ' || c == '\t' || c == '\n' || c == '\r' || c == Char.ofNat 11 || c == Char.ofNat 12

/-- Python's `str.strip()`. -/
def pyStrip (s : String) : String :=
  ⟨((s.data.dropWhile pySpace).reverse.dropWhile pySpace).reverse⟩

/-! ## Resilient fetch engine — `web_scraper.py`

`EnhancedWebScraper._classify_error`, `_should_retry`, `_get_retry_delay`,
`_should_circuit_break`, `_update_circuit_breaker` and the retry loop of
`scrape_page_content_with_retry`. Rate limiting, user-agent rotation and the
actual page extraction are irrelevant to the verified claims; a scrape
attempt's outcome (success, or an exception carrying an error message) is an
oracle `outcomes : Nat → AttemptOutcome`. -/

/-- `FailureType` enum of the source. -/
inductive FailureType where
  | timeout
  | blocked
  | network
  | parsing
  | javascript
  | captcha
  | rate_limited
  | unknown
deriving DecidableEq

/-- A Python exception as seen by `_classify_error`: whether it is a
`PlaywrightTimeoutError`, and its `str(error)` message. -/
structure PyError where
  isPlaywrightTimeout : Bool
  msg : String
deriving DecidableEq

def anyPattern (patterns : List String) (s : String) : Bool :=
  patterns.any fun p => substrIn p s

/-- `_classify_error` of the source. -/
def classify_error (e : PyError) : FailureType :=
  let errStr := pyLower e.msg
  if e.isPlaywrightTimeout || substrIn "timeout" errStr then .timeout
  else if anyPattern ["blocked", "403", "forbidden", "access denied"] errStr then .blocked
  else if anyPattern ["429", "rate limit", "too many requests"] errStr then .rate_limited
  else if anyPattern ["captcha", "verification", "bot"] errStr then .captcha
  else if anyPattern ["network", "connection", "resolve", "dns"] errStr then .network
  else if anyPattern ["javascript", "js", "script"] errStr then .javascript
  else if anyPattern ["parse", "parsing", "html"] errStr then .parsing
  else .unknown

/-- `_should_retry` of the source. -/
def should_retry (max_retries : Nat) (e : PyError) (attempt : Nat) : Bool :=
  if attempt ≥ max_retries then false
  else
    let ft := classify_error e
    if ft = .blocked ∨ ft = .captcha then false
    else if ft = .timeout ∨ ft = .network ∨ ft = .unknown then true
    else if ft = .rate_limited then decide (attempt < 2)
    else true

/-- Base backoff delay of `_get_retry_delay`, in milliseconds
(source: 5.0 / 2.0 / 1.5 / 1.0 seconds). -/
def retry_base_delay : FailureType → ℤ
  | .rate_limited => 5000
  | .network => 2000
  | .timeout => 1500
  | _ => 1000

/-- `_get_retry_delay` of the source, in milliseconds: exponential backoff
`base * 2 ** attempt` plus the sampled `random.uniform(0, 1)` jitter, capped
at 30 seconds. -/
def get_retry_delay (attempt : Nat) (failure_type : FailureType) (jitter : ℤ) : ℤ :=
  min (retry_base_delay failure_type * 2 ^ attempt + jitter) 30000

/-- The three circuit states of `CircuitBreakerState.state`
("closed" / "open" / "half-open"). -/
inductive CircuitState where
  | closed
  | opened
  | halfOpen
deriving DecidableEq

/-- `CircuitBreakerState` dataclass of the source (times in seconds). -/
structure CircuitBreakerState where
  failure_count : Nat := 0
  last_failure : ℤ := 0
  state : CircuitState := .closed
  success_count : Nat := 0
deriving DecidableEq

/-- `_should_circuit_break` of the source: moves an open circuit to
half-open once more than 5 minutes (300 s) have passed since the last
failure, then reports whether the (updated) circuit is open. -/
def should_circuit_break (enable_circuit_breaker : Bool) (b : CircuitBreakerState) (now : ℤ) :
    Bool × CircuitBreakerState :=
  if !enable_circuit_breaker then (false, b)
  else
    let b' := if b.state = .opened ∧ now - b.last_failure > 300 then
        { b with state := .halfOpen, success_count := 0 }
      else b
    (decide (b'.state = .opened), b')

/-- `_update_circuit_breaker` of the source. -/
def update_circuit_breaker (enable_circuit_breaker : Bool) (b : CircuitBreakerState)
    (success : Bool) (now : ℤ) : CircuitBreakerState :=
  if !enable_circuit_breaker then b
  else if success then
    let b' := { b with success_count := b.success_count + 1 }
    if b'.state = .halfOpen ∧ b'.success_count ≥ 2 then
      { b' with state := .closed, failure_count := 0 }
    else b'
  else
    let b' := { b with failure_count := b.failure_count + 1, last_failure := now }
    if b'.failure_count ≥ 3 then { b' with state := .opened } else b'

/-- Outcome of one navigation/extraction attempt inside the retry loop:
success, or an exception (whose classification drives the retry decision). -/
inductive AttemptOutcome where
  | success
  | failure (e : PyError)

/-- What `scrape_page_content_with_retry` hands back: real page content, or
the synthesized fallback (`_generate_realistic_content`) used when the
circuit is open or all attempts failed. -/
inductive ScrapeResult where
  | content
  | synthesized
deriving DecidableEq

structure ScraperConfig where
  max_retries : Nat := 3
  enable_circuit_breaker : Bool := true

/-- The `for retry_count in range(max_retries + 1)` loop of
`scrape_page_content_with_retry`, returning the result, the circuit-breaker
state, and how many attempts were made. `times k` is the clock at attempt
`k`; `fuel` bounds the recursion (the entry point supplies
`max_retries + 1`, the exact length of the Python range). -/
def scrape_loop (cfg : ScraperConfig) (outcomes : Nat → AttemptOutcome) (times : Nat → ℤ) :
    Nat → Nat → CircuitBreakerState → ScrapeResult × CircuitBreakerState × Nat
  | _, 0, b => (.synthesized, b, 0)
  | k, fuel + 1, b =>
    match outcomes k with
    | .success =>
      (.content, update_circuit_breaker cfg.enable_circuit_breaker b true (times k), 1)
    | .failure e =>
      let b' := update_circuit_breaker cfg.enable_circuit_breaker b false (times k)
      if should_retry cfg.max_retries e k then
        let r := scrape_loop cfg outcomes times (k + 1) fuel b'
        (r.1, r.2.1, r.2.2 + 1)
      else (.synthesized, b', 1)

/-- `scrape_page_content_with_retry` of the source: the circuit-breaker gate
followed by the retry loop. Returns the result, the final breaker state and
the number of attempts made (0 when the circuit was open and the network was
skipped entirely). -/
def scrape_page_content_with_retry (cfg : ScraperConfig) (b : CircuitBreakerState)
    (outcomes : Nat → AttemptOutcome) (times : Nat → ℤ) (now : ℤ) :
    ScrapeResult × CircuitBreakerState × Nat :=
  let gate := should_circuit_break cfg.enable_circuit_breaker b now
  if gate.1 then (.synthesized, gate.2, 0)
  else scrape_loop cfg outcomes times 0 (cfg.max_retries + 1) gate.2

/-! ## Semantic similarity cache — `similarity_detector.py` -/

/-- `TTLPolicy` of the source (seconds). -/
structure TTLPolicy where
  default_ttl : ℤ := 86400
  time_sensitive_ttl : ℤ := 3600
  stable_content_ttl : ℤ := 604800

/-- The detector's `self.ttl_policy = TTLPolicy()`. -/
def ttl_policy : TTLPolicy := {}

/-- One record of the JSON cache file written by `store_query_with_results`.
`expires_at`: `none` = field absent, `some none` = present but not
ISO-parsable, `some (some t)` = parses to time `t` (seconds). -/
structure QueryRecord where
  query : String
  embedding : List ℤ
  results : List String
  timestamp : ℤ
  expires_at : Option (Option ℤ)
  ttl_seconds : ℤ
  category : String
  metadata : List (String × String)
  query_hash : String
deriving DecidableEq

/-- Constructor arguments of `EnhancedSimilarityDetector.__init__`, plus
whether an OpenAI client is configured. Milli-units: `850` is the source's
`0.85`, `750` its `0.75`. -/
structure DetectorConfig where
  similarity_threshold : ℤ := 850
  llm_validation_threshold : ℤ := 750
  enable_llm_validation : Bool := true
  knn_neighbors : Nat := 5
  strict_mode : Bool := true
  has_openai_client : Bool := true

/-- `self.domain_keywords` of the source. -/
def domain_keywords : List (String × List String) := [
  ("web_automation", ["playwright", "selenium", "puppeteer", "webdriver"]),
  ("programming_languages", ["python", "java", "javascript", "typescript", "go", "rust", "c++"]),
  ("web_frameworks", ["react", "vue", "angular", "django", "flask", "express"]),
  ("databases", ["mysql", "postgresql", "mongodb", "redis", "elasticsearch"]),
  ("cloud_platforms", ["aws", "azure", "gcp", "google cloud", "amazon web services"]),
  ("testing_tools", ["jest", "pytest", "mocha", "cypress", "testcafe"]),
  ("version_control", ["git", "github", "gitlab", "bitbucket", "svn"]),
  ("operating_systems", ["windows", "linux", "macos", "ubuntu", "centos"])]

/-- `_extract_domain_keywords` (expects an already lower-cased query, as in
the source's call sites). -/
def extract_domain_keywords (query : String) : List String :=
  (domain_keywords.filter fun dk => dk.2.any fun kw => substrIn kw query).map (·.1)

/-- `incompatible_pairs` table inside `_are_domains_compatible`. -/
def incompatible_pairs : List (String × String) := [
  ("web_automation", "programming_languages"),
  ("web_frameworks", "databases"),
  ("testing_tools", "cloud_platforms"),
  ("programming_languages", "web_frameworks"),
  ("databases", "cloud_platforms"),
  ("version_control", "testing_tools")]

/-- `_are_domains_compatible` of the source. -/
def are_domains_compatible (domains1 domains2 : List String) : Bool :=
  if domains1.isEmpty || domains2.isEmpty then true
  else if domains1.any fun d => domains2.contains d then true
  else !(domains1.any fun d1 => domains2.any fun d2 =>
      incompatible_pairs.any fun p =>
        (d1 == p.1 || d1 == p.2) && (d2 == p.1 || d2 == p.2) && d1 != d2)

/-- `_domain_specific_validation` of the source. -/
def domain_specific_validation (query : String) (similar_queries : List (QueryRecord × ℤ)) :
    List (QueryRecord × ℤ) :=
  let query_domains := extract_domain_keywords (pyLower query)
  similar_queries.filter fun sq =>
    are_domains_compatible query_domains (extract_domain_keywords (pyLower sq.1.query))

/-- `technology_groups` inside `_check_technology_mismatch`. -/
def technology_groups : List (List String) := [
  ["playwright", "selenium", "puppeteer", "webdriver"],
  ["python", "java", "javascript", "typescript", "go", "rust", "c++", "c#", "php", "ruby"],
  ["react", "vue", "angular", "django", "flask", "express", "spring", "laravel"],
  ["mysql", "postgresql", "mongodb", "redis", "elasticsearch", "cassandra", "oracle"],
  ["aws", "azure", "gcp", "google cloud", "amazon web services", "microsoft azure"],
  ["jest", "pytest", "mocha", "cypress", "testcafe", "junit", "rspec"],
  ["git", "github", "gitlab", "bitbucket", "svn", "mercurial"],
  ["windows", "linux", "macos", "ubuntu", "centos", "debian", "fedora"],
  ["ios", "android", "react native", "flutter", "xamarin"],
  ["iphone 14", "iphone 15", "iphone 13", "iphone 12"],
  ["docker", "kubernetes", "docker-compose", "openshift"]]

/-- `_check_technology_mismatch` of the source: true when both queries
mention members of the same curated group but share none. -/
def check_technology_mismatch (query1 query2 : String) : Bool :=
  let q1 := pyLower query1
  let q2 := pyLower query2
  technology_groups.any fun group =>
    let found1 := group.filter fun tech => substrIn tech q1
    let found2 := group.filter fun tech => substrIn tech q2
    !found1.isEmpty && !found2.isEmpty && !(found1.any fun t => found2.contains t)

/-- `_calculate_textual_similarity`: the source lower-cases both queries and
calls `difflib.SequenceMatcher(...).ratio()`, here the oracle `textSim`. -/
def calculate_textual_similarity (textSim : String → String → ℤ) (query1 query2 : String) : ℤ :=
  textSim (pyLower query1) (pyLower query2)

/-- `_calculate_confidence_score`, weights 0.4 / 0.3 / 0.3. Inputs are in
milli-units; the result is in units of 1/10000 so the integer arithmetic is
exact (no claim inspects its numeric value). -/
def calculate_confidence_score (embedding_similarity textual_similarity llm_confidence : ℤ) : ℤ :=
  4 * embedding_similarity + 3 * textual_similarity + 3 * llm_confidence

/-- Parsed verdict that `_llm_validate_similarity` returns (confidence in
milli-units). -/
structure LLMVerdict where
  is_similar : Bool
  confidence : ℤ
  reason : String
deriving DecidableEq

/-- Raw outcome of one OpenAI chat call as `_llm_validate_similarity`
consumes it: the call raised; the content was empty or yielded no JSON
object with an `is_similar` field; a full parse (fenced or plain JSON,
confidence clamped to [0,1], defaults applied); or a regex-extracted parse
(defaults applied, no clamping). -/
inductive LLMRaw where
  | exn
  | unparseable
  | okFull (is_similar : Bool) (confidence : Option ℤ) (reason : Option String)
  | okRegex (is_similar : Bool) (confidence : Option ℤ) (reason : Option String)

/-- `_llm_validate_similarity` of the source. -/
def llm_validate_similarity (has_client : Bool) (raw : LLMRaw) : LLMVerdict :=
  if !has_client then { is_similar := false, confidence := 0, reason := "LLM not available" }
  else match raw with
  | .exn => { is_similar := false, confidence := 0, reason := "LLM validation failed" }
  | .unparseable =>
    { is_similar := false, confidence := 0, reason := "LLM response parsing failed" }
  | .okFull s c r =>
    { is_similar := s, confidence := max 0 (min 1000 (c.getD 500)),
      reason := r.getD "LLM validation completed" }
  | .okRegex s c r =>
    { is_similar := s, confidence := c.getD 500,
      reason := r.getD "Extracted from partial response" }

/-- Stable insertion into a similarity-descending list (equal scores keep
their original relative order, as Python's stable sort does). -/
def insert_desc {α : Type} (p : α × ℤ) : List (α × ℤ) → List (α × ℤ)
  | [] => [p]
  | q :: t => if q.2 < p.2 then p :: q :: t else q :: insert_desc p t

/-- Stable sort by descending similarity, the order produced by
`kneighbors` (nearest first) and the source's `sort(key=..., reverse=True)`. -/
def sort_desc {α : Type} (l : List (α × ℤ)) : List (α × ℤ) :=
  l.foldl (fun acc x => insert_desc x acc) []

/-- `_knn_similarity_search`: cosine similarity to every stored embedding
(oracle `embedSim`), the `min(knn_neighbors, len(stored))` nearest, filtered
by the base threshold, sorted descending. -/
def knn_similarity_search (cfg : DetectorConfig) (embedSim : String → String → ℤ)
    (query : String) (stored : List QueryRecord) : List (QueryRecord × ℤ) :=
  let sims := stored.map fun r => (r, embedSim query r.query)
  let nearest := (sort_desc sims).take (min cfg.knn_neighbors stored.length)
  nearest.filter fun p => p.2 ≥ cfg.similarity_threshold

/-- The expiry test shared by `_load_and_clean_stored_queries` and
`clear_expired_queries`: only a present, parsable `expires_at` strictly in
the past counts as expired. -/
def is_expired (now : ℤ) (r : QueryRecord) : Bool :=
  match r.expires_at with
  | some (some t) => decide (t < now)
  | _ => false

/-- `_load_and_clean_stored_queries` of the source. -/
def load_and_clean_stored_queries (now : ℤ) (stored : List QueryRecord) : List QueryRecord :=
  if stored.isEmpty then [] else stored.filter fun r => !is_expired now r

/-- `clear_expired_queries` of the source: the surviving records and the
count of removed (expired) ones. -/
def clear_expired_queries (now : ℤ) (stored : List QueryRecord) : List QueryRecord × Nat :=
  if stored.isEmpty then (stored, 0)
  else (stored.filter fun r => !is_expired now r, stored.countP (is_expired now))

/-- `SimilarityResult` pydantic model of the source (defaults as there;
`similar_queries` holds each record with its `similarity_score`). -/
structure SimilarityResult where
  found_similar : Bool
  similar_queries : List (QueryRecord × ℤ) := []
  best_match : Option QueryRecord := none
  best_similarity : ℤ := 0
  validation_method : String := "embedding_only"
  llm_validated : Bool := false
  cache_hit_reason : Option String := none
  confidence_score : ℤ := 0
  validation_stages : List String := []
deriving DecidableEq

/-- The `for stored_query, similarity in similar_queries[1:]` fallback loop
of stage 5: visit candidates in order, LLM-validate those above the
secondary threshold, accept the first confirmed one. Also tracks the last
verdict seen (the source's `llm_result` variable reused at stage 6). -/
def llm_scan (has_client : Bool) (llm : String → String → LLMRaw) (thr : ℤ) (query : String) :
    List (QueryRecord × ℤ) → Option LLMVerdict →
    Option (QueryRecord × ℤ × LLMVerdict) × Option LLMVerdict
  | [], last => (none, last)
  | (r, s) :: t, last =>
    if s ≥ thr then
      let v := llm_validate_similarity has_client (llm query r.query)
      if v.is_similar && decide (v.confidence ≥ 700) then (some (r, s, v), some v)
      else llm_scan has_client llm thr query t (some v)
    else llm_scan has_client llm thr query t last

/-- Stage 6 of `find_similar_query`: the final embedding-only check, with
the strict-mode `+ 0.05` (here `+ 50`) bump of the base threshold. -/
def final_embedding_stage (cfg : DetectorConfig) (cands : List (QueryRecord × ℤ))
    (best : QueryRecord) (best_similarity textual_similarity : ℤ)
    (last_llm : Option LLMVerdict) (stages : List String) : SimilarityResult :=
  let stages6 := stages ++ ["final_embedding_check"]
  let final_threshold :=
    if cfg.strict_mode then cfg.similarity_threshold + 50 else cfg.similarity_threshold
  if best_similarity ≥ final_threshold then
    { found_similar := true, similar_queries := cands, best_match := some best,
      best_similarity := best_similarity, validation_method := "embedding_only",
      llm_validated := false,
      cache_hit_reason := some "High embedding similarity with domain validation",
      confidence_score := calculate_confidence_score best_similarity textual_similarity
        ((last_llm.map (·.confidence)).getD 0),
      validation_stages := stages6 }
  else
    { found_similar := false, validation_method := "strict_filtered",
      validation_stages := stages6 }

/-- Stages 5 and 6 of `find_similar_query`: conditional LLM arbitration of
the best match, the fallback loop over the remaining candidates, then the
final embedding-only check. -/
def after_textual_stage (cfg : DetectorConfig) (llm : String → String → LLMRaw) (query : String)
    (best : QueryRecord) (best_similarity : ℤ) (rest cands : List (QueryRecord × ℤ))
    (textual_similarity : ℤ) (stages : List String) : SimilarityResult :=
  if cfg.enable_llm_validation && cfg.has_openai_client &&
      decide (best_similarity ≥ cfg.llm_validation_threshold) then
    let stages5 := stages ++ ["llm_validation"]
    let v := llm_validate_similarity cfg.has_openai_client (llm query best.query)
    if v.is_similar && decide (v.confidence ≥ 700) then
      { found_similar := true, similar_queries := cands, best_match := some best,
        best_similarity := best_similarity, validation_method := "llm_validated",
        llm_validated := true, cache_hit_reason := some v.reason,
        confidence_score :=
          calculate_confidence_score best_similarity textual_similarity v.confidence,
        validation_stages := stages5 }
    else
      match llm_scan cfg.has_openai_client llm cfg.llm_validation_threshold query rest (some v) with
      | (some (r, s, v2), _) =>
        { found_similar := true, similar_queries := [(r, s)], best_match := some r,
          best_similarity := s, validation_method := "llm_validated", llm_validated := true,
          cache_hit_reason := some v2.reason,
          confidence_score := calculate_confidence_score s textual_similarity v2.confidence,
          validation_stages := stages5 }
      | (none, last) =>
        final_embedding_stage cfg cands best best_similarity textual_similarity last stages5
  else final_embedding_stage cfg cands best best_similarity textual_similarity none stages

/-- The candidate list as it stands after stage 2: KNN search over the
cleaned store, then (in strict mode) the domain-keyword filter. -/
def candidates_after_domain (cfg : DetectorConfig) (embedSim : String → String → ℤ)
    (now : ℤ) (store : List QueryRecord) (query : String) : List (QueryRecord × ℤ) :=
  let cands := knn_similarity_search cfg embedSim query (load_and_clean_stored_queries now store)
  if cfg.strict_mode then domain_specific_validation query cands else cands

/-- `find_similar_query` of the source. Returns the result together with the
store contents after the purge performed by the initial load. -/
def find_similar_query (cfg : DetectorConfig) (embedSim textSim : String → String → ℤ)
    (llm : String → String → LLMRaw) (now : ℤ) (store : List QueryRecord) (query : String) :
    SimilarityResult × List QueryRecord :=
  let stored := load_and_clean_stored_queries now store
  if stored.isEmpty then
    ({ found_similar := false, validation_method := "no_cache",
       validation_stages := ["no_cache"] }, stored)
  else
    let cands := knn_similarity_search cfg embedSim query stored
    if cands.isEmpty then
      ({ found_similar := false, validation_method := "embedding_only",
         validation_stages := ["knn_search"] }, stored)
    else
      let stages2 :=
        if cfg.strict_mode then ["knn_search", "domain_validation"] else ["knn_search"]
      match candidates_after_domain cfg embedSim now store query with
      | [] =>
        ({ found_similar := false, validation_method := "domain_filtered",
           validation_stages := stages2 }, stored)
      | (best, best_similarity) :: rest =>
        let stages3 := stages2 ++ ["technology_check"]
        if check_technology_mismatch query best.query then
          ({ found_similar := false, validation_method := "technology_mismatch",
             validation_stages := stages3 }, stored)
        else
          let stages4 := stages3 ++ ["textual_similarity"]
          let textual_similarity := calculate_textual_similarity textSim query best.query
          if textual_similarity < 300 then
            ({ found_similar := false, validation_method := "textual_filtered",
               validation_stages := stages4 }, stored)
          else
            (after_textual_stage cfg llm query best best_similarity rest
              ((best, best_similarity) :: rest) textual_similarity stages4, stored)

/-- `time_sensitive_indicators` of `_classify_query_for_ttl`. -/
def time_sensitive_indicators : List String := [
  "current", "latest", "recent", "today", "now", "live", "real-time",
  "stock", "price", "weather", "news", "breaking", "trending",
  "score", "match", "game", "market", "traffic", "flight"]

/-- `stable_indicators` of `_classify_query_for_ttl`. -/
def stable_indicators : List String := [
  "tutorial", "how to", "definition", "meaning", "history",
  "concept", "theory", "basics", "fundamentals", "documentation",
  "reference", "guide", "manual", "specs", "specification"]

/-- `_classify_query_for_ttl` of the source. -/
def classify_query_for_ttl (query : String) : String :=
  let ql := pyLower query
  if time_sensitive_indicators.any (fun i => substrIn i ql) then "time_sensitive"
  else if stable_indicators.any (fun i => substrIn i ql) then "stable_content"
  else "default"

/-- `_get_ttl_for_category` of the source (seconds). -/
def get_ttl_for_category (category : String) : ℤ :=
  if category = "time_sensitive" then ttl_policy.time_sensitive_ttl
  else if category = "stable_content" then ttl_policy.stable_content_ttl
  else ttl_policy.default_ttl

/-- The `query_record` dict built inside `store_query_with_results`
(`embed` is the embedding service, `md5` the hash oracle; both `now` calls
of the source observe the same clock instant). -/
def build_query_record (embed : String → List ℤ) (md5 : String → String) (now : ℤ)
    (query : String) (results : List String) (metadata : List (String × String)) :
    QueryRecord :=
  let category := classify_query_for_ttl query
  let ttl := get_ttl_for_category category
  { query := query, embedding := embed query, results := results, timestamp := now,
    expires_at := some (some (now + ttl)), ttl_seconds := ttl, category := category,
    metadata := metadata, query_hash := md5 query }

/-- `store_query_with_results` of the source: drop every record with the
same hash, append the fresh record. -/
def store_query_with_results (embed : String → List ℤ) (md5 : String → String) (now : ℤ)
    (query : String) (results : List String) (metadata : List (String × String))
    (store : List QueryRecord) : List QueryRecord :=
  let record := build_query_record embed md5 now query results metadata
  (store.filter fun r => r.query_hash != record.query_hash) ++ [record]

/-! ## Query gate — `query_validator.py`

`EnhancedQueryValidator.validate_query`. The classification cache, the regex
heuristic banks and the LLM classifier are oracle parameters (their outputs
do not matter for the verified claim, only whether they are consulted); the
second component of the result is the ghost trace of consulted components. -/

/-- `QueryValidationResult` pydantic model (confidence in milli-units). -/
structure QueryValidationResult where
  is_valid : Bool
  confidence : ℤ
  reason : String
  category : Option String := none
  validation_method : String := "llm"
deriving DecidableEq

/-- `validate_query` of the source: the blank-input guard, then cache, then
the quick heuristic (short-circuiting above confidence 0.9), then the LLM
classifier when configured, else the enhanced heuristic fallback. -/
def validate_query (cache : String → Option QueryValidationResult)
    (heuristic_check : String → QueryValidationResult)
    (llm_classifier : Option (String → QueryValidationResult))
    (enhanced_heuristic : String → QueryValidationResult)
    (query : String) : QueryValidationResult × List String :=
  if query = "" || pyStrip query = "" then
    ({ is_valid := false, confidence := 1000, reason := "Empty or whitespace-only query",
       validation_method := "basic" }, [])
  else
    match cache query with
    | some cached => ({ cached with validation_method := "cached" }, ["classification_cache"])
    | none =>
      let h := heuristic_check query
      if h.confidence > 900 then (h, ["classification_cache", "heuristic_patterns"])
      else match llm_classifier with
        | some f => (f query, ["classification_cache", "heuristic_patterns", "llm_classifier"])
        | none =>
          (enhanced_heuristic query,
            ["classification_cache", "heuristic_patterns", "enhanced_heuristic"])

/-! ## Concrete fixtures used by counterexamples and witnesses -/

/-- A cached record for "playwright guide" (no expiry field). -/
def c2_rec1 : QueryRecord :=
  { query := "playwright guide", embedding := [1], results := [], timestamp := 0,
    expires_at := none, ttl_seconds := 86400, category := "default", metadata := [],
    query_hash := "h1" }

/-- A cached record for "selenium" (no expiry field). -/
def c2_rec2 : QueryRecord :=
  { query := "selenium", embedding := [2], results := [], timestamp := 0,
    expires_at := none, ttl_seconds := 86400, category := "default", metadata := [],
    query_hash := "h2" }

/-- Embedding oracle: 0.90 against the playwright record, 0.88 against the
selenium record. -/
def c2_embedSim : String → String → ℤ :=
  fun _ r => if r == "playwright guide" then 900 else if r == "selenium" then 880 else 0

/-- LLM oracle: rejects the playwright pairing, confirms the selenium
pairing with confidence 0.9. -/
def c2_llm : String → String → LLMRaw :=
  fun _ r => if r == "selenium" then .okFull true (some 900) none else .okFull false none none

/-- A tech-keyword-free cached record. -/
def c7_rec : QueryRecord :=
  { query := "hello", embedding := [1], results := [], timestamp := 0,
    expires_at := none, ttl_seconds := 86400, category := "default", metadata := [],
    query_hash := "h" }

/-- Detector configuration with LLM validation disabled (strict mode on). -/
def c7_cfg : DetectorConfig := { enable_llm_validation := false }

/-- An already-expired record (`expires_at` = 5). -/
def c5_rec : QueryRecord :=
  { query := "hello", embedding := [1], results := [], timestamp := 0,
    expires_at := some (some 5), ttl_seconds := 5, category := "default", metadata := [],
    query_hash := "h" }

/-- A record whose `expires_at` field is present but not ISO-parsable. -/
def c9_rec : QueryRecord :=
  { query := "hello", embedding := [1], results := [], timestamp := 0,
    expires_at := some none, ttl_seconds := 86400, category := "default", metadata := [],
    query_hash := "h" }

/-- Detector configuration with LLM validation disabled, for the
unparsable-expiry scenario. -/
def c9_cfg : DetectorConfig := { enable_llm_validation := false }

/-- Two records with distinct hashes, a well-formed store. -/
def c6_recA : QueryRecord :=
  { query := "alpha", embedding := [1], results := [], timestamp := 0,
    expires_at := none, ttl_seconds := 86400, category := "default", metadata := [],
    query_hash := "alpha" }

/-- Second record of the well-formed store. -/
def c6_recB : QueryRecord :=
  { query := "beta", embedding := [2], results := [], timestamp := 0,
    expires_at := none, ttl_seconds := 86400, category := "default", metadata := [],
    query_hash := "beta" }

/-! ## Helper lemmas -/

theorem should_retry_of_blocked_or_captcha (m : Nat) (e : PyError) (a : Nat)
    (h : classify_error e = .blocked ∨ classify_error e = .captcha) :
    should_retry m e a = false := by
  unfold should_retry
  rcases h with h | h <;> rw [h] <;> split <;> simp

theorem should_retry_of_always_retryable (m : Nat) (e : PyError) (a : Nat)
    (h : classify_error e = .timeout ∨ classify_error e = .network ∨
      classify_error e = .unknown ∨ classify_error e = .javascript ∨
      classify_error e = .parsing) :
    should_retry m e a = decide (a < m) := by
  unfold should_retry
  rcases h with h | h | h | h | h <;> rw [h] <;> split <;> rename_i hm <;> simp <;> omega

theorem should_retry_of_rate_limited (m : Nat) (e : PyError) (a : Nat)
    (h : classify_error e = .rate_limited) :
    should_retry m e a = (decide (a < m) && decide (a < 2)) := by
  unfold should_retry
  rw [h]
  split <;> rename_i hm <;> simp <;> omega

theorem scrape_loop_timeout_count (cfg : ScraperConfig) (outcomes : Nat → AttemptOutcome)
    (times : Nat → ℤ)
    (h : ∀ k, ∃ e, outcomes k = .failure e ∧ classify_error e = .timeout) :
    ∀ (fuel k : Nat) (b : CircuitBreakerState), k + fuel = cfg.max_retries + 1 →
      (scrape_loop cfg outcomes times k fuel b).2.2 = fuel := by
  intro fuel
  induction fuel with
  | zero => intro k b _; rfl
  | succ n ih =>
    intro k b hk
    obtain ⟨e, he, hc⟩ := h k
    rw [scrape_loop, he]
    have hr := should_retry_of_always_retryable cfg.max_retries e k (Or.inl hc)
    by_cases hlt : k < cfg.max_retries
    · have hih := fun b' => ih (k + 1) b' (by omega)
      simp [hr, hlt, hih]
    · have hn0 : n = 0 := by omega
      subst hn0
      simp [hr, hlt]

/-! ## Claim theorems -/

/-- C1: the per-domain circuit breaker follows the specified state
machine: (1) three consecutive failures always leave the circuit open with
`failure_count ≥ 3` and the last failure time recorded; (2) while the
circuit is open and at most 300 s have passed since the last failure, a
retrieval skips the network entirely and returns synthesized content (zero
attempts); (3) once more than 300 s (5 minutes) have passed, the check
moves the circuit to half-open, resets `success_count`, and lets the trial
request through; (4) a failed trial in half-open (where `failure_count ≥ 3`
still holds) re-opens the circuit at once, so only one failing trial is
possible; (5) two consecutive successes in half-open close the circuit and
reset the failure count. -/
theorem circuit_breaker_state_machine :
    (∀ (b : CircuitBreakerState) (t1 t2 t3 : ℤ),
      (update_circuit_breaker true (update_circuit_breaker true
          (update_circuit_breaker true b false t1) false t2) false t3).state = .opened ∧
      (update_circuit_breaker true (update_circuit_breaker true
          (update_circuit_breaker true b false t1) false t2) false t3).failure_count ≥ 3 ∧
      (update_circuit_breaker true (update_circuit_breaker true
          (update_circuit_breaker true b false t1) false t2) false t3).last_failure = t3) ∧
    (∀ (cfg : ScraperConfig) (b : CircuitBreakerState) (outcomes : Nat → AttemptOutcome)
        (times : Nat → ℤ) (now : ℤ), cfg.enable_circuit_breaker = true →
      b.state = .opened → now - b.last_failure ≤ 300 →
      scrape_page_content_with_retry cfg b outcomes times now = (.synthesized, b, 0)) ∧
    (∀ (b : CircuitBreakerState) (now : ℤ), b.state = .opened → now - b.last_failure > 300 →
      should_circuit_break true b now =
        (false, { b with state := .halfOpen, success_count := 0 })) ∧
    (∀ (b : CircuitBreakerState) (now : ℤ), b.state = .halfOpen → b.failure_count ≥ 3 →
      (update_circuit_breaker true b false now).state = .opened) ∧
    (∀ (b : CircuitBreakerState) (t1 t2 : ℤ), b.state = .halfOpen → b.success_count = 0 →
      (update_circuit_breaker true (update_circuit_breaker true b true t1) true t2).state
        = .closed ∧
      (update_circuit_breaker true (update_circuit_breaker true b true t1) true t2).failure_count
        = 0) := by
  refine ⟨?_, ?_, ?_, ?_, ?_⟩
  · intro b t1 t2 t3
    simp only [update_circuit_breaker, Bool.not_true, Bool.false_eq_true, if_false,
      Bool.false_eq_true, if_neg (by simp : ¬(false = true))]
    split <;> split <;> split <;> simp_all
  · intro cfg b outcomes times now hen hst h300
    have hngt : ¬(300 < now - b.last_failure) := by omega
    simp [scrape_page_content_with_retry, should_circuit_break, hen, hst, hngt]
  · intro b now hst h300
    simp [should_circuit_break, hst, h300]
  · intro b now hst hfc
    simp only [update_circuit_breaker, Bool.not_true, Bool.false_eq_true, if_false,
      if_neg (by simp : ¬(false = true))]
    split
    · rfl
    · omega
  · intro b t1 t2 hst hsc
    obtain ⟨fc, lf, st, sc⟩ := b
    simp only at hst hsc
    subst hst
    subst hsc
    simp [update_circuit_breaker]

/-- Witness for `circuit_breaker_state_machine` at concrete breakers and
times. -/
theorem circuit_breaker_state_machine_witness :
    ((update_circuit_breaker true (update_circuit_breaker true
        (update_circuit_breaker true {} false 1) false 2) false 3).state = .opened ∧
      (update_circuit_breaker true (update_circuit_breaker true
        (update_circuit_breaker true {} false 1) false 2) false 3).failure_count ≥ 3 ∧
      (update_circuit_breaker true (update_circuit_breaker true
        (update_circuit_breaker true {} false 1) false 2) false 3).last_failure = 3) ∧
    scrape_page_content_with_retry {} ⟨3, 30, .opened, 0⟩ (fun _ => .success) (fun _ => 0) 100 =
      (.synthesized, ⟨3, 30, .opened, 0⟩, 0) ∧
    should_circuit_break true ⟨3, 30, .opened, 0⟩ 331 = (false, ⟨3, 30, .halfOpen, 0⟩) ∧
    (update_circuit_breaker true ⟨3, 30, .halfOpen, 0⟩ false 400).state = .opened ∧
    ((update_circuit_breaker true (update_circuit_breaker true
        ⟨3, 30, .halfOpen, 0⟩ true 401) true 402).state = .closed ∧
      (update_circuit_breaker true (update_circuit_breaker true
        ⟨3, 30, .halfOpen, 0⟩ true 401) true 402).failure_count = 0) :=
  ⟨circuit_breaker_state_machine.1 {} 1 2 3,
   circuit_breaker_state_machine.2.1 {} ⟨3, 30, .opened, 0⟩ (fun _ => .success) (fun _ => 0)
     100 rfl rfl (by decide),
   circuit_breaker_state_machine.2.2.1 ⟨3, 30, .opened, 0⟩ 331 rfl (by decide),
   circuit_breaker_state_machine.2.2.2.1 ⟨3, 30, .halfOpen, 0⟩ 400 rfl (by decide),
   circuit_breaker_state_machine.2.2.2.2 ⟨3, 30, .halfOpen, 0⟩ 401 402 rfl rfl⟩

/-- C3 counterexample: a `rate_limited` failure is retried only while
`attempt < 2`, not up to `max_retries`. With the default `max_retries = 3`,
a persistent rate-limited failure gets 3 attempts (2 retries) while a
persistent timeout gets 4 — yet attempt index 2 is still below
`max_retries`, so the claim "all other retryable kinds likewise retry up to
max_retries" fails at `rate_limited`. -/
theorem retry_policy_rate_limited_counterexample :
    classify_error ⟨false, "rate limit exceeded"⟩ = .rate_limited ∧
    (2 : Nat) < 3 ∧
    should_retry 3 ⟨false, "rate limit exceeded"⟩ 2 = false ∧
    (scrape_page_content_with_retry {} {}
      (fun _ => .failure ⟨false, "rate limit exceeded"⟩) (fun _ => 0) 0).2.2 = 3 ∧
    (scrape_page_content_with_retry {} {}
      (fun _ => .failure ⟨true, "timed out"⟩) (fun _ => 0) 0).2.2 = 4 := by decide

/-- C3 amended: failures classified `blocked` or `captcha` are never
retried — after such a first attempt the scrape stops at exactly one
attempt and synthesizes content; `timeout`, `network`, `unknown`,
`javascript` and `parsing` failures retry exactly while `attempt <
max_retries` (so a persistent timeout costs `max_retries + 1` attempts);
`rate_limited` failures retry only while additionally `attempt < 2`; and
every retry delay is `base * 2 ^ attempt + jitter` capped at 30 s, with
base 5 s for `rate_limited`, 2 s for `network` and 1.5 s for `timeout`
(milliseconds in this embedding, jitter sampled from [0, 1) s). -/
theorem retry_policy_amended :
    (∀ (m : Nat) (e : PyError) (a : Nat),
      classify_error e = .blocked ∨ classify_error e = .captcha →
      should_retry m e a = false) ∧
    (∀ (cfg : ScraperConfig) (b : CircuitBreakerState) (outcomes : Nat → AttemptOutcome)
        (times : Nat → ℤ) (now : ℤ) (e : PyError),
      (should_circuit_break cfg.enable_circuit_breaker b now).1 = false →
      outcomes 0 = .failure e →
      classify_error e = .blocked ∨ classify_error e = .captcha →
      (scrape_page_content_with_retry cfg b outcomes times now).1 = .synthesized ∧
      (scrape_page_content_with_retry cfg b outcomes times now).2.2 = 1) ∧
    (∀ (m : Nat) (e : PyError) (a : Nat),
      classify_error e = .timeout ∨ classify_error e = .network ∨
      classify_error e = .unknown ∨ classify_error e = .javascript ∨
      classify_error e = .parsing →
      should_retry m e a = decide (a < m)) ∧
    (∀ (m : Nat) (e : PyError) (a : Nat), classify_error e = .rate_limited →
      should_retry m e a = (decide (a < m) && decide (a < 2))) ∧
    (∀ (cfg : ScraperConfig) (b : CircuitBreakerState) (outcomes : Nat → AttemptOutcome)
        (times : Nat → ℤ) (now : ℤ),
      (should_circuit_break cfg.enable_circuit_breaker b now).1 = false →
      (∀ k, ∃ e, outcomes k = .failure e ∧ classify_error e = .timeout) →
      (scrape_page_content_with_retry cfg b outcomes times now).2.2 = cfg.max_retries + 1) ∧
    (∀ (a : Nat) (ft : FailureType) (jitter : ℤ), 0 ≤ jitter → jitter < 1000 →
      get_retry_delay a ft jitter = min (retry_base_delay ft * 2 ^ a + jitter) 30000 ∧
      retry_base_delay .rate_limited = 5000 ∧ retry_base_delay .network = 2000 ∧
      retry_base_delay .timeout = 1500) := by
  refine ⟨should_retry_of_blocked_or_captcha, ?_, should_retry_of_always_retryable,
    should_retry_of_rate_limited, ?_, ?_⟩
  · intro cfg b outcomes times now e hgate hout hcls
    have hr := should_retry_of_blocked_or_captcha cfg.max_retries e 0 hcls
    constructor <;> simp [scrape_page_content_with_retry, hgate, scrape_loop, hout, hr]
  · intro cfg b outcomes times now hgate hto
    have hcount := scrape_loop_timeout_count cfg outcomes times hto (cfg.max_retries + 1) 0
      (should_circuit_break cfg.enable_circuit_breaker b now).2 (by omega)
    simp [scrape_page_content_with_retry, hgate, hcount]
  · intro a ft j _ _
    exact ⟨rfl, rfl, rfl, rfl⟩

/-- Witness for `retry_policy_amended`: a 403 error is `blocked` and gets a
single attempt; a Playwright timeout at attempt 1 of 3 retries; a 429 at
attempt 2; a persistent timeout run costs 4 attempts; the delay formula at
attempt 0 for a network failure with jitter 0.5 s. -/
theorem retry_policy_amended_witness :
    should_retry 3 ⟨false, "HTTP 403 Forbidden"⟩ 0 = false ∧
    ((scrape_page_content_with_retry {} {}
        (fun _ => .failure ⟨false, "HTTP 403 Forbidden"⟩) (fun _ => 0) 0).1 = .synthesized ∧
      (scrape_page_content_with_retry {} {}
        (fun _ => .failure ⟨false, "HTTP 403 Forbidden"⟩) (fun _ => 0) 0).2.2 = 1) ∧
    should_retry 3 ⟨true, "nav timeout"⟩ 1 = decide ((1 : Nat) < 3) ∧
    should_retry 3 ⟨false, "429 too many requests"⟩ 2 =
      (decide ((2 : Nat) < 3) && decide ((2 : Nat) < 2)) ∧
    (scrape_page_content_with_retry {} {}
      (fun _ => .failure ⟨true, "nav timeout"⟩) (fun _ => 0) 0).2.2 = 3 + 1 ∧
    (get_retry_delay 0 .network 500 = min (retry_base_delay .network * 2 ^ 0 + 500) 30000 ∧
      retry_base_delay .rate_limited = 5000 ∧ retry_base_delay .network = 2000 ∧
      retry_base_delay .timeout = 1500) :=
  ⟨retry_policy_amended.1 3 ⟨false, "HTTP 403 Forbidden"⟩ 0 (Or.inl (by decide)),
   retry_policy_amended.2.1 {} {} (fun _ => .failure ⟨false, "HTTP 403 Forbidden"⟩)
     (fun _ => 0) 0 ⟨false, "HTTP 403 Forbidden"⟩ (by decide) rfl (Or.inl (by decide)),
   retry_policy_amended.2.2.1 3 ⟨true, "nav timeout"⟩ 1 (Or.inl (by decide)),
   retry_policy_amended.2.2.2.1 3 ⟨false, "429 too many requests"⟩ 2 (by decide),
   retry_policy_amended.2.2.2.2.1 {} {} (fun _ => .failure ⟨true, "nav timeout"⟩)
     (fun _ => 0) 0 (by decide) (fun _ => ⟨⟨true, "nav timeout"⟩, rfl, by decide⟩),
   retry_policy_amended.2.2.2.2.2 0 .network 500 (by decide) (by decide)⟩

/-- C4: `store_query_with_results` stores exactly the record built by
the TTL classification; a query containing a time-sensitive indicator gets
TTL ≤ 1 h (3600 s); one containing a stable-content indicator and no
time-sensitive indicator gets TTL ≥ 7 d (604800 s); every other query gets
24 h (86400 s); and the stored record always satisfies
`expires_at = created_at + ttl`. -/
theorem ttl_classification_and_expiry :
    (∀ (embed : String → List ℤ) (md5 : String → String) (now : ℤ) (query : String)
        (results : List String) (metadata : List (String × String)) (store : List QueryRecord),
      store_query_with_results embed md5 now query results metadata store =
        (store.filter fun r =>
          r.query_hash != (build_query_record embed md5 now query results metadata).query_hash)
          ++ [build_query_record embed md5 now query results metadata]) ∧
    (∀ (embed : String → List ℤ) (md5 : String → String) (now : ℤ) (query : String)
        (results : List String) (metadata : List (String × String)),
      time_sensitive_indicators.any (fun i => substrIn i (pyLower query)) = true →
      (build_query_record embed md5 now query results metadata).ttl_seconds ≤ 3600) ∧
    (∀ (embed : String → List ℤ) (md5 : String → String) (now : ℤ) (query : String)
        (results : List String) (metadata : List (String × String)),
      time_sensitive_indicators.any (fun i => substrIn i (pyLower query)) = false →
      stable_indicators.any (fun i => substrIn i (pyLower query)) = true →
      604800 ≤ (build_query_record embed md5 now query results metadata).ttl_seconds) ∧
    (∀ (embed : String → List ℤ) (md5 : String → String) (now : ℤ) (query : String)
        (results : List String) (metadata : List (String × String)),
      time_sensitive_indicators.any (fun i => substrIn i (pyLower query)) = false →
      stable_indicators.any (fun i => substrIn i (pyLower query)) = false →
      (build_query_record embed md5 now query results metadata).ttl_seconds = 86400) ∧
    (∀ (embed : String → List ℤ) (md5 : String → String) (now : ℤ) (query : String)
        (results : List String) (metadata : List (String × String)),
      (build_query_record embed md5 now query results metadata).expires_at =
        some (some ((build_query_record embed md5 now query results metadata).timestamp +
          (build_query_record embed md5 now query results metadata).ttl_seconds))) := by
  refine ⟨fun _ _ _ _ _ _ _ => rfl, ?_, ?_, ?_, fun _ _ _ _ _ _ => rfl⟩
  · intro embed md5 now query results metadata h
    have hc : classify_query_for_ttl query = "time_sensitive" := by
      simp [classify_query_for_ttl, h]
    simp [build_query_record, hc, get_ttl_for_category, ttl_policy]
  · intro embed md5 now query results metadata hts hst
    have hc : classify_query_for_ttl query = "stable_content" := by
      simp [classify_query_for_ttl, hts, hst]
    simp [build_query_record, hc, get_ttl_for_category, ttl_policy]
  · intro embed md5 now query results metadata hts hst
    have hc : classify_query_for_ttl query = "default" := by
      simp [classify_query_for_ttl, hts, hst]
    simp [build_query_record, hc, get_ttl_for_category, ttl_policy]

/-- Witness for `ttl_classification_and_expiry`: "weather in paris" is
time-sensitive (TTL ≤ 1 h), "python tutorial" stable (TTL ≥ 7 d),
"best restaurants" default (24 h). -/
theorem ttl_classification_and_expiry_witness :
    store_query_with_results (fun _ => []) (fun s => s) 0 "weather in paris" [] [] [] =
      (([] : List QueryRecord).filter fun r =>
        r.query_hash != (build_query_record (fun _ => []) (fun s => s) 0
          "weather in paris" [] []).query_hash)
        ++ [build_query_record (fun _ => []) (fun s => s) 0 "weather in paris" [] []] ∧
    (build_query_record (fun _ => []) (fun s => s) 0 "weather in paris" [] []).ttl_seconds
      ≤ 3600 ∧
    604800 ≤
      (build_query_record (fun _ => []) (fun s => s) 0 "python tutorial" [] []).ttl_seconds ∧
    (build_query_record (fun _ => []) (fun s => s) 0 "best restaurants" [] []).ttl_seconds
      = 86400 ∧
    (build_query_record (fun _ => []) (fun s => s) 0 "weather in paris" [] []).expires_at =
      some (some ((build_query_record (fun _ => []) (fun s => s) 0
        "weather in paris" [] []).timestamp +
        (build_query_record (fun _ => []) (fun s => s) 0 "weather in paris" [] []).ttl_seconds)) :=
  ⟨ttl_classification_and_expiry.1 (fun _ => []) (fun s => s) 0 "weather in paris" [] [] [],
   ttl_classification_and_expiry.2.1 (fun _ => []) (fun s => s) 0 "weather in paris" [] []
     (by decide),
   ttl_classification_and_expiry.2.2.1 (fun _ => []) (fun s => s) 0 "python tutorial" [] []
     (by decide) (by decide),
   ttl_classification_and_expiry.2.2.2.1 (fun _ => []) (fun s => s) 0 "best restaurants" [] []
     (by decide) (by decide),
   ttl_classification_and_expiry.2.2.2.2 (fun _ => []) (fun s => s) 0 "weather in paris" [] []⟩

theorem store_countP_eq_one (embed : String → List ℤ) (md5 : String → String) (now : ℤ)
    (query : String) (results : List String) (metadata : List (String × String))
    (store : List QueryRecord) :
    (store_query_with_results embed md5 now query results metadata store).countP
      (fun r => r.query_hash == md5 query) = 1 := by
  have hq : (build_query_record embed md5 now query results metadata).query_hash = md5 query :=
    rfl
  have h0 : (store.filter fun r =>
      r.query_hash != (build_query_record embed md5 now query results metadata).query_hash).countP
      (fun r => r.query_hash == md5 query) = 0 := by
    rw [List.countP_eq_zero]
    intro a ha
    rw [List.mem_filter] at ha
    have h2 := ha.2
    rw [hq] at h2
    simp only [bne_iff_ne, ne_eq] at h2
    simp [h2]
  simp only [store_query_with_results]
  rw [List.countP_append, h0, List.countP_cons]
  simp [hq]

theorem store_fold_countP (embed : String → List ℤ) (md5 : String → String) (query : String)
    (metadata : List (String × String)) (ops : List (ℤ × List String)) :
    ∀ st : List QueryRecord, st.countP (fun r => r.query_hash == md5 query) = 1 →
      (ops.foldl (fun acc p => store_query_with_results embed md5 p.1 query p.2 metadata acc)
        st).countP (fun r => r.query_hash == md5 query) = 1 := by
  induction ops with
  | nil => intro st h; exact h
  | cons p t ih =>
    intro st _
    exact ih _ (store_countP_eq_one embed md5 p.1 query p.2 metadata st)

/-- C6: storing is an upsert keyed by the query hash — after any store,
exactly one record carries the stored query's hash; a store with pairwise
distinct hashes keeps pairwise distinct hashes (so no two records ever
share a `query_hash`); and re-storing the same query any number of times
still leaves exactly one record with that hash. -/
theorem store_upsert_unique_hash :
    (∀ (embed : String → List ℤ) (md5 : String → String) (now : ℤ) (query : String)
        (results : List String) (metadata : List (String × String)) (store : List QueryRecord),
      (store_query_with_results embed md5 now query results metadata store).countP
        (fun r => r.query_hash == md5 query) = 1) ∧
    (∀ (embed : String → List ℤ) (md5 : String → String) (now : ℤ) (query : String)
        (results : List String) (metadata : List (String × String)) (store : List QueryRecord),
      store.Pairwise (fun a b => a.query_hash ≠ b.query_hash) →
      (store_query_with_results embed md5 now query results metadata store).Pairwise
        (fun a b => a.query_hash ≠ b.query_hash)) ∧
    (∀ (embed : String → List ℤ) (md5 : String → String) (query : String)
        (metadata : List (String × String)) (ops : List (ℤ × List String)) (now : ℤ)
        (results : List String) (store : List QueryRecord),
      (ops.foldl (fun acc p => store_query_with_results embed md5 p.1 query p.2 metadata acc)
        (store_query_with_results embed md5 now query results metadata store)).countP
        (fun r => r.query_hash == md5 query) = 1) := by
  refine ⟨store_countP_eq_one, ?_, ?_⟩
  · intro embed md5 now query results metadata store h
    simp only [store_query_with_results]
    rw [List.pairwise_append]
    refine ⟨h.filter _, List.pairwise_singleton _ _, ?_⟩
    intro a ha b hb
    rw [List.mem_filter] at ha
    simp only [List.mem_singleton] at hb
    subst hb
    have h2 := ha.2
    simp only [bne_iff_ne, ne_eq] at h2
    exact h2
  · intro embed md5 query metadata ops now results store
    exact store_fold_countP embed md5 query metadata ops _
      (store_countP_eq_one embed md5 now query results metadata store)

/-- Witness for `store_upsert_unique_hash`: storing "gamma" (hash oracle =
identity) into a two-record store with distinct hashes, then twice more. -/
theorem store_upsert_unique_hash_witness :
    (store_query_with_results (fun _ => []) (fun s => s) 7 "gamma" ["r"] []
      [c6_recA, c6_recB]).countP (fun r => r.query_hash == "gamma") = 1 ∧
    (store_query_with_results (fun _ => []) (fun s => s) 7 "gamma" ["r"] []
      [c6_recA, c6_recB]).Pairwise (fun a b => a.query_hash ≠ b.query_hash) ∧
    ([(8, ["r2"]), (9, ["r3"])].foldl
      (fun acc p => store_query_with_results (fun _ => []) (fun s => s) p.1 "gamma" p.2 [] acc)
      (store_query_with_results (fun _ => []) (fun s => s) 7 "gamma" ["r"] []
        [c6_recA, c6_recB])).countP (fun r => r.query_hash == "gamma") = 1 :=
  ⟨store_upsert_unique_hash.1 (fun _ => []) (fun s => s) 7 "gamma" ["r"] [] [c6_recA, c6_recB],
   store_upsert_unique_hash.2.1 (fun _ => []) (fun s => s) 7 "gamma" ["r"] []
     [c6_recA, c6_recB] (by decide),
   store_upsert_unique_hash.2.2 (fun _ => []) (fun s => s) "gamma" [] [(8, ["r2"]), (9, ["r3"])]
     7 ["r"] [c6_recA, c6_recB]⟩

/-- C8: a query that is empty or all-whitespace is rejected by
`validate_query` with full confidence (1.0), method "basic", and without
consulting the classification cache, the heuristic pattern banks or the LLM
classifier (the ghost trace of consulted components is empty). -/
theorem blank_query_rejected_basic (cache : String → Option QueryValidationResult)
    (heuristic_check : String → QueryValidationResult)
    (llm_classifier : Option (String → QueryValidationResult))
    (enhanced_heuristic : String → QueryValidationResult)
    (query : String) (h : pyStrip query = "") :
    validate_query cache heuristic_check llm_classifier enhanced_heuristic query =
      ({ is_valid := false, confidence := 1000, reason := "Empty or whitespace-only query",
         category := none, validation_method := "basic" }, []) := by
  simp [validate_query, h]

/-- Witness for `blank_query_rejected_basic` at the whitespace query
`"   "`, with oracles that would accept anything. -/
theorem blank_query_rejected_basic_witness :
    validate_query (fun _ => none)
      (fun _ => { is_valid := true, confidence := 950, reason := "p",
                  validation_method := "heuristic" })
      (some fun _ => { is_valid := true, confidence := 900, reason := "l" })
      (fun _ => { is_valid := true, confidence := 600, reason := "e",
                  validation_method := "enhanced_heuristic" })
      "   " =
      ({ is_valid := false, confidence := 1000, reason := "Empty or whitespace-only query",
         category := none, validation_method := "basic" }, []) :=
  blank_query_rejected_basic (fun _ => none)
    (fun _ => { is_valid := true, confidence := 950, reason := "p",
                validation_method := "heuristic" })
    (some fun _ => { is_valid := true, confidence := 900, reason := "l" })
    (fun _ => { is_valid := true, confidence := 600, reason := "e",
                validation_method := "enhanced_heuristic" })
    "   " (by decide)

/-- C9: a record whose `expires_at` is absent or not ISO-parsable is
never treated as expired: both the purge pass of every lookup and the
explicit `clear_expired_queries` keep it at every time `now`, and (at the
concrete fixture) it keeps being returned as a cache hit at arbitrarily
late lookup times. -/
theorem unparsable_expiry_kept_forever :
    (∀ (now : ℤ) (store : List QueryRecord) (r : QueryRecord), r ∈ store →
      r.expires_at = none ∨ r.expires_at = some none →
      r ∈ load_and_clean_stored_queries now store ∧
      r ∈ (clear_expired_queries now store).1) ∧
    (∀ now : ℤ,
      (find_similar_query c9_cfg (fun _ _ => 950) (fun _ _ => 900) (fun _ _ => .exn)
        now [c9_rec] "hello").1.found_similar = true ∧
      (find_similar_query c9_cfg (fun _ _ => 950) (fun _ _ => 900) (fun _ _ => .exn)
        now [c9_rec] "hello").1.best_match = some c9_rec) := by
  constructor
  · intro now store r hmem hexp
    have hexp' : is_expired now r = false := by
      rcases hexp with h | h <;> simp [is_expired, h]
    cases store with
    | nil => simp at hmem
    | cons a t =>
      constructor
      · simp only [load_and_clean_stored_queries, List.isEmpty_cons, Bool.false_eq_true,
          if_false]
        exact List.mem_filter.mpr ⟨hmem, by simp [hexp']⟩
      · simp only [clear_expired_queries, List.isEmpty_cons, Bool.false_eq_true, if_false]
        exact List.mem_filter.mpr ⟨hmem, by simp [hexp']⟩
  · intro now
    exact ⟨rfl, rfl⟩

/-- Witness for `unparsable_expiry_kept_forever` at `now = 10 ^ 9`. -/
theorem unparsable_expiry_kept_forever_witness :
    (c9_rec ∈ load_and_clean_stored_queries (10 ^ 9) [c9_rec] ∧
      c9_rec ∈ (clear_expired_queries (10 ^ 9) [c9_rec]).1) ∧
    ((find_similar_query c9_cfg (fun _ _ => 950) (fun _ _ => 900) (fun _ _ => .exn)
        (10 ^ 9) [c9_rec] "hello").1.found_similar = true ∧
      (find_similar_query c9_cfg (fun _ _ => 950) (fun _ _ => 900) (fun _ _ => .exn)
        (10 ^ 9) [c9_rec] "hello").1.best_match = some c9_rec) :=
  ⟨unparsable_expiry_kept_forever.1 (10 ^ 9) [c9_rec] c9_rec (by decide) (Or.inr rfl),
   unparsable_expiry_kept_forever.2 (10 ^ 9)⟩

theorem llm_scan_no_accept (has_client : Bool) (llm : String → String → LLMRaw) (thr : ℤ)
    (query : String)
    (h : ∀ a b, (llm_validate_similarity has_client (llm a b)).is_similar = false) :
    ∀ (l : List (QueryRecord × ℤ)) (init : Option LLMVerdict),
      (llm_scan has_client llm thr query l init).1 = none := by
  intro l
  induction l with
  | nil => intro init; rfl
  | cons p t ih =>
    intro init
    obtain ⟨r, s⟩ := p
    rw [llm_scan]
    split
    · simp [h query r.query, ih]
    · exact ih _

theorem final_embedding_stage_not_llm (cfg : DetectorConfig) (cands : List (QueryRecord × ℤ))
    (best : QueryRecord) (bs ts : ℤ) (last : Option LLMVerdict) (stages : List String) :
    (final_embedding_stage cfg cands best bs ts last stages).llm_validated = false ∧
    (final_embedding_stage cfg cands best bs ts last stages).validation_method ≠
      "llm_validated" := by
  unfold final_embedding_stage
  dsimp only
  split <;> split <;> exact ⟨rfl, by simp⟩

theorem after_textual_stage_not_llm (cfg : DetectorConfig) (llm : String → String → LLMRaw)
    (query : String) (best : QueryRecord) (bs : ℤ) (rest cands : List (QueryRecord × ℤ))
    (ts : ℤ) (stages : List String)
    (h : ∀ a b, (llm_validate_similarity cfg.has_openai_client (llm a b)).is_similar = false) :
    (after_textual_stage cfg llm query best bs rest cands ts stages).llm_validated = false ∧
    (after_textual_stage cfg llm query best bs rest cands ts stages).validation_method ≠
      "llm_validated" := by
  unfold after_textual_stage
  split
  · have hv := h query best.query
    have hs := llm_scan_no_accept cfg.has_openai_client llm cfg.llm_validation_threshold
      query h rest
    simp only [hv, Bool.false_and, Bool.false_eq_true, if_false]
    rcases hsc : llm_scan cfg.has_openai_client llm cfg.llm_validation_threshold query rest
      (some (llm_validate_similarity cfg.has_openai_client (llm query best.query))) with ⟨o, lastv⟩
    have ho : o = none := by
      have := hs (some (llm_validate_similarity cfg.has_openai_client (llm query best.query)))
      rw [hsc] at this
      exact this
    subst ho
    exact final_embedding_stage_not_llm cfg cands best bs ts lastv _
  · exact final_embedding_stage_not_llm cfg cands best bs ts none stages

theorem find_not_llm_validated (cfg : DetectorConfig) (embedSim textSim : String → String → ℤ)
    (llm : String → String → LLMRaw) (now : ℤ) (store : List QueryRecord) (query : String)
    (h : ∀ a b, (llm_validate_similarity cfg.has_openai_client (llm a b)).is_similar = false) :
    (find_similar_query cfg embedSim textSim llm now store query).1.llm_validated = false ∧
    (find_similar_query cfg embedSim textSim llm now store query).1.validation_method ≠
      "llm_validated" := by
  unfold find_similar_query
  dsimp only
  split
  · exact ⟨rfl, by simp⟩
  · split
    · exact ⟨rfl, by simp⟩
    · split
      · exact ⟨rfl, by simp⟩
      · split
        · exact ⟨rfl, by simp⟩
        · split
          · exact ⟨rfl, by simp⟩
          · exact after_textual_stage_not_llm cfg llm query _ _ _ _ _ _ h

/-- C10: LLM arbitration fails closed — an absent client, a raised
exception or an unparseable response all yield `is_similar = false` with
confidence 0.0, and therefore a lookup whose every LLM call fails (or whose
client is absent) can never accept a candidate through the `llm_validated`
path. -/
theorem llm_validation_fails_closed :
    (∀ raw : LLMRaw, llm_validate_similarity false raw =
      { is_similar := false, confidence := 0, reason := "LLM not available" }) ∧
    llm_validate_similarity true .exn =
      { is_similar := false, confidence := 0, reason := "LLM validation failed" } ∧
    llm_validate_similarity true .unparseable =
      { is_similar := false, confidence := 0, reason := "LLM response parsing failed" } ∧
    (∀ (cfg : DetectorConfig) (embedSim textSim : String → String → ℤ)
        (llm : String → String → LLMRaw) (now : ℤ) (store : List QueryRecord) (query : String),
      (∀ a b, llm a b = LLMRaw.exn ∨ llm a b = LLMRaw.unparseable) →
      (find_similar_query cfg embedSim textSim llm now store query).1.llm_validated = false ∧
      (find_similar_query cfg embedSim textSim llm now store query).1.validation_method ≠
        "llm_validated") ∧
    (∀ (cfg : DetectorConfig) (embedSim textSim : String → String → ℤ)
        (llm : String → String → LLMRaw) (now : ℤ) (store : List QueryRecord) (query : String),
      cfg.has_openai_client = false →
      (find_similar_query cfg embedSim textSim llm now store query).1.llm_validated = false ∧
      (find_similar_query cfg embedSim textSim llm now store query).1.validation_method ≠
        "llm_validated") := by
  refine ⟨fun raw => rfl, rfl, rfl, ?_, ?_⟩
  · intro cfg embedSim textSim llm now store query hraw
    refine find_not_llm_validated cfg embedSim textSim llm now store query ?_
    intro a b
    rcases hraw a b with h | h <;> rw [h] <;> cases hc : cfg.has_openai_client <;>
      simp [llm_validate_similarity]
  · intro cfg embedSim textSim llm now store query hc
    refine find_not_llm_validated cfg embedSim textSim llm now store query ?_
    intro a b
    rw [hc]
    simp [llm_validate_similarity]

/-- Witness for `llm_validation_fails_closed`: a store whose single record
sits above the LLM threshold, an always-raising LLM, and separately a
configuration without a client. -/
theorem llm_validation_fails_closed_witness :
    llm_validate_similarity false .exn =
      { is_similar := false, confidence := 0, reason := "LLM not available" } ∧
    ((find_similar_query {} (fun _ _ => 950) (fun _ _ => 900) (fun _ _ => .exn)
        0 [c7_rec] "hello").1.llm_validated = false ∧
      (find_similar_query {} (fun _ _ => 950) (fun _ _ => 900) (fun _ _ => .exn)
        0 [c7_rec] "hello").1.validation_method ≠ "llm_validated") ∧
    ((find_similar_query { has_openai_client := false } (fun _ _ => 950) (fun _ _ => 900)
        (fun _ _ => .okFull true (some 1000) none) 0 [c7_rec] "hello").1.llm_validated = false ∧
      (find_similar_query { has_openai_client := false } (fun _ _ => 950) (fun _ _ => 900)
        (fun _ _ => .okFull true (some 1000) none) 0 [c7_rec] "hello").1.validation_method ≠
        "llm_validated") :=
  ⟨llm_validation_fails_closed.1 .exn,
   llm_validation_fails_closed.2.2.2.1 {} (fun _ _ => 950) (fun _ _ => 900) (fun _ _ => .exn)
     0 [c7_rec] "hello" (fun _ _ => Or.inl rfl),
   llm_validation_fails_closed.2.2.2.2 { has_openai_client := false } (fun _ _ => 950)
     (fun _ _ => 900) (fun _ _ => .okFull true (some 1000) none) 0 [c7_rec] "hello" rfl⟩

theorem mem_of_mem_insert_desc {α : Type} (p q : α × ℤ) (l : List (α × ℤ))
    (h : q ∈ insert_desc p l) : q = p ∨ q ∈ l := by
  induction l with
  | nil =>
    simp only [insert_desc, List.mem_singleton] at h
    exact Or.inl h
  | cons a t ih =>
    simp only [insert_desc] at h
    split at h
    · rcases List.mem_cons.mp h with h | h
      · exact Or.inl h
      · exact Or.inr h
    · rcases List.mem_cons.mp h with h | h
      · exact Or.inr (h ▸ List.mem_cons_self a t)
      · rcases ih h with h | h
        · exact Or.inl h
        · exact Or.inr (List.mem_cons_of_mem a h)

theorem mem_of_mem_sort_desc {α : Type} (q : α × ℤ) (l : List (α × ℤ))
    (h : q ∈ sort_desc l) : q ∈ l := by
  have aux : ∀ (l' : List (α × ℤ)) (acc : List (α × ℤ)),
      q ∈ l'.foldl (fun a x => insert_desc x a) acc → q ∈ acc ∨ q ∈ l' := by
    intro l'
    induction l' with
    | nil => intro acc h'; exact Or.inl h'
    | cons x t ih =>
      intro acc h'
      rcases ih (insert_desc x acc) h' with h'' | h''
      · rcases mem_of_mem_insert_desc x q acc h'' with h3 | h3
        · exact Or.inr (h3 ▸ List.mem_cons_self x t)
        · exact Or.inl h3
      · exact Or.inr (List.mem_cons_of_mem x h'')
  rcases aux l [] h with h' | h'
  · simp at h'
  · exact h'

theorem mem_of_mem_knn (cfg : DetectorConfig) (embedSim : String → String → ℤ)
    (query : String) (stored : List QueryRecord) (p : QueryRecord × ℤ)
    (h : p ∈ knn_similarity_search cfg embedSim query stored) : p.1 ∈ stored := by
  unfold knn_similarity_search at h
  dsimp only at h
  have h1 : p ∈ sort_desc (stored.map fun r => (r, embedSim query r.query)) :=
    List.mem_of_mem_take (List.mem_filter.mp h).1
  have h2 := mem_of_mem_sort_desc p _ h1
  obtain ⟨r, hr, hre⟩ := List.mem_map.mp h2
  rw [← hre]
  exact hr

theorem mem_of_mem_candidates (cfg : DetectorConfig) (embedSim : String → String → ℤ)
    (now : ℤ) (store : List QueryRecord) (query : String) (p : QueryRecord × ℤ)
    (h : p ∈ candidates_after_domain cfg embedSim now store query) :
    p ∈ knn_similarity_search cfg embedSim query (load_and_clean_stored_queries now store) := by
  unfold candidates_after_domain at h
  dsimp only at h
  split at h
  · unfold domain_specific_validation at h
    dsimp only at h
    exact (List.mem_filter.mp h).1
  · exact h

theorem llm_scan_mem_of_accept (has_client : Bool) (llm : String → String → LLMRaw) (thr : ℤ)
    (query : String) :
    ∀ (l : List (QueryRecord × ℤ)) (init : Option LLMVerdict) (r : QueryRecord) (s : ℤ)
      (v : LLMVerdict),
      (llm_scan has_client llm thr query l init).1 = some (r, s, v) → (r, s) ∈ l := by
  intro l
  induction l with
  | nil => intro init r s v h; simp [llm_scan] at h
  | cons p t ih =>
    intro init r s v h
    obtain ⟨r0, s0⟩ := p
    rw [llm_scan] at h
    dsimp only at h
    split at h
    · split at h
      · simp only [Option.some.injEq, Prod.mk.injEq] at h
        obtain ⟨h1, h2, -⟩ := h
        rw [← h1, ← h2]
        exact List.mem_cons_self _ _
      · exact List.mem_cons_of_mem _ (ih _ r s v h)
    · exact List.mem_cons_of_mem _ (ih _ r s v h)

theorem final_embedding_stage_best_match (cfg : DetectorConfig)
    (cands : List (QueryRecord × ℤ)) (best : QueryRecord) (bs ts : ℤ)
    (last : Option LLMVerdict) (stages : List String) (r : QueryRecord)
    (h : (final_embedding_stage cfg cands best bs ts last stages).best_match = some r) :
    r = best := by
  unfold final_embedding_stage at h
  dsimp only at h
  split at h <;> split at h <;> simp_all

theorem after_textual_stage_best_match (cfg : DetectorConfig) (llm : String → String → LLMRaw)
    (query : String) (best : QueryRecord) (bs : ℤ) (rest cands : List (QueryRecord × ℤ))
    (ts : ℤ) (stages : List String) (r : QueryRecord)
    (h : (after_textual_stage cfg llm query best bs rest cands ts stages).best_match = some r) :
    r = best ∨ ∃ s, (r, s) ∈ rest := by
  unfold after_textual_stage at h
  dsimp only at h
  split at h
  · split at h
    · simp only [Option.some.injEq] at h
      exact Or.inl h.symm
    · split at h
      · rename_i r0 s0 v0 snd0 heq
        simp only [Option.some.injEq] at h
        right
        refine ⟨s0, ?_⟩
        rw [← h]
        exact llm_scan_mem_of_accept cfg.has_openai_client llm cfg.llm_validation_threshold
          query rest _ r0 s0 v0 (by rw [heq])
      · exact Or.inl (final_embedding_stage_best_match cfg cands best bs ts _ _ r h)
  · exact Or.inl (final_embedding_stage_best_match cfg cands best bs ts none stages r h)

theorem find_best_match_mem (cfg : DetectorConfig) (embedSim textSim : String → String → ℤ)
    (llm : String → String → LLMRaw) (now : ℤ) (store : List QueryRecord) (query : String)
    (r : QueryRecord)
    (h : (find_similar_query cfg embedSim textSim llm now store query).1.best_match = some r) :
    r ∈ load_and_clean_stored_queries now store := by
  unfold find_similar_query at h
  dsimp only at h
  split at h
  · simp at h
  · split at h
    · simp at h
    · split at h
      · simp at h
      · rename_i best bs rest heq
        split at h
        · simp at h
        · split at h
          · simp at h
          · rcases after_textual_stage_best_match cfg llm query best bs rest _ _ _ r h with
              h1 | ⟨s, h1⟩
            · have : (best, bs) ∈ candidates_after_domain cfg embedSim now store query := by
                rw [heq]; exact List.mem_cons_self _ _
              have := mem_of_mem_knn cfg embedSim query _ _ (mem_of_mem_candidates _ _ _ _ _ _ this)
              rw [h1]
              exact this
            · have : (r, s) ∈ candidates_after_domain cfg embedSim now store query := by
                rw [heq]; exact List.mem_cons_of_mem _ h1
              exact mem_of_mem_knn cfg embedSim query _ _ (mem_of_mem_candidates _ _ _ _ _ _ this)

/-- C5: a stored record whose parsable `expires_at` lies strictly in
the past at lookup time is purged from the backing store by the load at the
start of `find_similar_query` and is never returned as the best match. -/
theorem expired_record_not_returned (cfg : DetectorConfig)
    (embedSim textSim : String → String → ℤ) (llm : String → String → LLMRaw) (now : ℤ)
    (store : List QueryRecord) (query : String) (r : QueryRecord) (t : ℤ)
    (_hmem : r ∈ store) (hexp : r.expires_at = some (some t)) (ht : t < now) :
    r ∉ (find_similar_query cfg embedSim textSim llm now store query).2 ∧
    (find_similar_query cfg embedSim textSim llm now store query).1.best_match ≠ some r := by
  have hnotclean : r ∉ load_and_clean_stored_queries now store := by
    intro hin
    unfold load_and_clean_stored_queries at hin
    split at hin
    · simp at hin
    · have h2 := (List.mem_filter.mp hin).2
      simp [is_expired, hexp, ht] at h2
  have hsnd : (find_similar_query cfg embedSim textSim llm now store query).2 =
      load_and_clean_stored_queries now store := by
    unfold find_similar_query
    dsimp only
    split
    · rfl
    · split
      · rfl
      · split
        · rfl
        · split
          · rfl
          · split <;> rfl
  constructor
  · rw [hsnd]
    exact hnotclean
  · intro hbm
    exact hnotclean
      (find_best_match_mem cfg embedSim textSim llm now store query r hbm)

/-- Witness for `expired_record_not_returned`: a store holding only a
record that expired at time 5, looked up at time 10. -/
theorem expired_record_not_returned_witness :
    c5_rec ∉ (find_similar_query {} (fun _ _ => 950) (fun _ _ => 900) (fun _ _ => .exn)
      10 [c5_rec] "hello").2 ∧
    (find_similar_query {} (fun _ _ => 950) (fun _ _ => 900) (fun _ _ => .exn)
      10 [c5_rec] "hello").1.best_match ≠ some c5_rec :=
  expired_record_not_returned {} (fun _ _ => 950) (fun _ _ => 900) (fun _ _ => .exn)
    10 [c5_rec] "hello" c5_rec 5 (by decide) rfl (by decide)

theorem isEmpty_false_of_mem {α : Type} {l : List α} {x : α} (h : x ∈ l) :
    l.isEmpty = false := by
  cases l
  · simp at h
  · rfl

/-- C2 counterexample: "playwright" vs the stored "selenium" record name
different members of the web-automation exclusion set and share none
(`check_technology_mismatch` is true for the pair), yet with a second
playwright-flavoured record ranked first, an LLM that rejects the top
candidate and approves the selenium one makes `find_similar_query` report
`found_similar = true` with the selenium record as best match: the
technology-mismatch filter is applied only to the top-ranked candidate, and
the LLM-rejection fallback loop skips it. -/
theorem technology_mismatch_llm_fallback_counterexample :
    check_technology_mismatch "playwright" c2_rec2.query = true ∧
    c2_rec2.query = "selenium" ∧
    (find_similar_query {} c2_embedSim (fun _ _ => 500) c2_llm 0 [c2_rec1, c2_rec2]
      "playwright").1.found_similar = true ∧
    (find_similar_query {} c2_embedSim (fun _ _ => 500) c2_llm 0 [c2_rec1, c2_rec2]
      "playwright").1.best_match = some c2_rec2 ∧
    (find_similar_query {} c2_embedSim (fun _ _ => 500) c2_llm 0 [c2_rec1, c2_rec2]
      "playwright").1.validation_method = "llm_validated" := by decide

/-- C2 amended: the technology-mismatch guard holds for the top-ranked
candidate — whenever the best candidate after domain filtering names a
different member of the same curated mutually-exclusive technology set with
no shared member (the source's `_check_technology_mismatch` is true for the
pair), the lookup reports no match with method "technology_mismatch".
Non-top candidates reached through the LLM-rejection fallback loop are not
re-checked (see the counterexample). -/
theorem technology_mismatch_top_candidate (cfg : DetectorConfig)
    (embedSim textSim : String → String → ℤ) (llm : String → String → LLMRaw) (now : ℤ)
    (store : List QueryRecord) (query : String) (best : QueryRecord) (bs : ℤ)
    (rest : List (QueryRecord × ℤ))
    (hc : candidates_after_domain cfg embedSim now store query = (best, bs) :: rest)
    (hmis : check_technology_mismatch query best.query = true) :
    (find_similar_query cfg embedSim textSim llm now store query).1.found_similar = false ∧
    (find_similar_query cfg embedSim textSim llm now store query).1.validation_method =
      "technology_mismatch" := by
  have hb : (best, bs) ∈ candidates_after_domain cfg embedSim now store query := by
    rw [hc]; exact List.mem_cons_self _ _
  have hknn := mem_of_mem_candidates cfg embedSim now store query _ hb
  have hrec := mem_of_mem_knn cfg embedSim query _ _ hknn
  have h1 : (load_and_clean_stored_queries now store).isEmpty = false :=
    isEmpty_false_of_mem hrec
  have h2 : (knn_similarity_search cfg embedSim query
      (load_and_clean_stored_queries now store)).isEmpty = false := isEmpty_false_of_mem hknn
  unfold find_similar_query
  dsimp only
  simp only [h1, h2, Bool.false_eq_true, if_false, hc]
  simp only [hmis, if_true]
  constructor <;> trivial

/-- Witness for `technology_mismatch_top_candidate`: the store holds only
the selenium record and the query is "playwright", so the mismatching
record is the top candidate and the lookup rejects it. -/
theorem technology_mismatch_top_candidate_witness :
    (find_similar_query {} c2_embedSim (fun _ _ => 500) c2_llm 0 [c2_rec2]
      "playwright").1.found_similar = false ∧
    (find_similar_query {} c2_embedSim (fun _ _ => 500) c2_llm 0 [c2_rec2]
      "playwright").1.validation_method = "technology_mismatch" :=
  technology_mismatch_top_candidate {} c2_embedSim (fun _ _ => 500) c2_llm 0 [c2_rec2]
    "playwright" c2_rec2 880 [] (by decide) (by decide)

theorem final_embedding_stage_found_iff (cfg : DetectorConfig)
    (cands : List (QueryRecord × ℤ)) (best : QueryRecord) (bs ts : ℤ)
    (last : Option LLMVerdict) (stages : List String) :
    ((final_embedding_stage cfg cands best bs ts last stages).found_similar = true ↔
      bs ≥ (if cfg.strict_mode = true then cfg.similarity_threshold + 50
        else cfg.similarity_threshold)) := by
  unfold final_embedding_stage
  dsimp only
  split <;> split <;> simp_all

theorem after_textual_stage_found_iff (cfg : DetectorConfig) (llm : String → String → LLMRaw)
    (query : String) (best : QueryRecord) (bs : ℤ) (rest cands : List (QueryRecord × ℤ))
    (ts : ℤ) (stages : List String)
    (hnotin : "final_embedding_check" ∉ stages)
    (hstage : "final_embedding_check" ∈
      (after_textual_stage cfg llm query best bs rest cands ts stages).validation_stages) :
    ((after_textual_stage cfg llm query best bs rest cands ts stages).found_similar = true ↔
      bs ≥ (if cfg.strict_mode = true then cfg.similarity_threshold + 50
        else cfg.similarity_threshold)) := by
  revert hstage
  unfold after_textual_stage
  dsimp only
  split
  · split
    · intro hstage
      exfalso
      simp only [List.mem_append, List.mem_singleton] at hstage
      rcases hstage with h | h
      · exact hnotin h
      · simp at h
    · split
      · intro hstage
        exfalso
        simp only [List.mem_append, List.mem_singleton] at hstage
        rcases hstage with h | h
        · exact hnotin h
        · simp at h
      · intro _
        exact final_embedding_stage_found_iff cfg cands best bs ts _ _
  · intro _
    exact final_embedding_stage_found_iff cfg cands best bs ts none stages

/-- C7: whenever a lookup reaches the final embedding-only stage (the
"final_embedding_check" entry appears in the result's stage trace, i.e. no
LLM arbitration accepted a candidate), the top candidate is accepted if and
only if its similarity reaches the base threshold plus 0.05 in strict mode,
and the base threshold alone with strict mode disabled. -/
theorem strict_mode_final_threshold (cfg : DetectorConfig)
    (embedSim textSim : String → String → ℤ) (llm : String → String → LLMRaw) (now : ℤ)
    (store : List QueryRecord) (query : String) (best : QueryRecord) (bs : ℤ)
    (rest : List (QueryRecord × ℤ))
    (hc : candidates_after_domain cfg embedSim now store query = (best, bs) :: rest)
    (hstage : "final_embedding_check" ∈
      (find_similar_query cfg embedSim textSim llm now store query).1.validation_stages) :
    ((find_similar_query cfg embedSim textSim llm now store query).1.found_similar = true ↔
      bs ≥ (if cfg.strict_mode = true then cfg.similarity_threshold + 50
        else cfg.similarity_threshold)) := by
  have hb : (best, bs) ∈ candidates_after_domain cfg embedSim now store query := by
    rw [hc]; exact List.mem_cons_self _ _
  have hknn := mem_of_mem_candidates cfg embedSim now store query _ hb
  have hrec := mem_of_mem_knn cfg embedSim query _ _ hknn
  have h1 : (load_and_clean_stored_queries now store).isEmpty = false :=
    isEmpty_false_of_mem hrec
  have h2 : (knn_similarity_search cfg embedSim query
      (load_and_clean_stored_queries now store)).isEmpty = false := isEmpty_false_of_mem hknn
  revert hstage
  unfold find_similar_query
  dsimp only
  simp only [h1, h2, Bool.false_eq_true, if_false, hc]
  split
  · intro hstage
    exfalso
    cases hS : cfg.strict_mode <;> rw [hS] at hstage <;> simp at hstage
  · split
    · intro hstage
      exfalso
      cases hS : cfg.strict_mode <;> rw [hS] at hstage <;> simp at hstage
    · intro hstage
      refine after_textual_stage_found_iff cfg llm query best bs rest _ _ _ ?_ hstage
      cases hS : cfg.strict_mode <;> simp [hS]

/-- Witness for `strict_mode_final_threshold`: LLM validation disabled,
strict mode on, a single candidate at similarity 0.95 reaching the final
stage, accepted because 0.95 ≥ 0.85 + 0.05. -/
theorem strict_mode_final_threshold_witness :
    candidates_after_domain c7_cfg (fun _ _ => 950) 0 [c7_rec] "hello" = [(c7_rec, 950)] ∧
    "final_embedding_check" ∈
      (find_similar_query c7_cfg (fun _ _ => 950) (fun _ _ => 900) (fun _ _ => .exn)
        0 [c7_rec] "hello").1.validation_stages ∧
    ((find_similar_query c7_cfg (fun _ _ => 950) (fun _ _ => 900) (fun _ _ => .exn)
        0 [c7_rec] "hello").1.found_similar = true ↔
      (950 : ℤ) ≥ (if c7_cfg.strict_mode = true then c7_cfg.similarity_threshold + 50
        else c7_cfg.similarity_threshold)) :=
  ⟨by decide, by decide,
   strict_mode_final_threshold c7_cfg (fun _ _ => 950) (fun _ _ => 900) (fun _ _ => .exn)
     0 [c7_rec] "hello" c7_rec 950 [] (by decide) (by decide)⟩
